import Mathlib

/-!
Verification development for the cast module of Pyrseas
(src/pyrseas/dbobject/cast.py): the Cast entity and the CastDict
collection, with their external-key rendering, document parsing
(from_map), SQL generation (create/drop) and diffing (_diff_map).

Python strings are modelled as Lean String (a list of characters),
Python dicts that the code iterates are modelled as association lists in
insertion order, Python exceptions as an explicit error type threaded
through Except / Option results, and attribute access on objects that
may lack the attribute as Option fields.
-/

namespace Pyrseas

/-- The Python exception kinds raised by the cast module:
KeyError, ValueError, AttributeError (attribute access on a missing
attribute) and NameError (use of an unbound local variable). -/
inductive PyErr where
  | keyError (msg : String)
  | valueError (msg : String)
  | attributeError (attr : String)
  | nameError (name : String)
deriving DecidableEq, Repr

/-- Python str.upper on a character list (ASCII). -/
def upperList (l : List Char) : List Char := l.map Char.toUpper

/-- Index of the first occurrence of `pat` as a contiguous sublist of the
second argument; models Python str.find when the pattern is present and
the `in` test via `isSome`. -/
def firstOccur (pat : List Char) : List Char → Option Nat
  | [] => if pat.isPrefixOf [] then some 0 else none
  | c :: rest =>
    if pat.isPrefixOf (c :: rest) then some 0
    else (firstOccur pat rest).map (· + 1)

/-- Python `pat in s` (substring test). -/
def containsSub (s pat : List Char) : Bool := (firstOccur pat s).isSome

/-- A single-quoted rendering, as Python %-formatting of a quoted string
produces. -/
def pyq (s : String) : String := "\x27" ++ s ++ "\x27"

/-- Python `s[:1].lower()`. -/
def lower1 (s : String) : String := String.mk ((s.data.take 1).map Char.toLower)

/-- Python `s.rstrip('[]')`: drop trailing square-bracket characters. -/
def pyRstripBr (s : String) : String :=
  String.mk ((s.data.reverse.dropWhile (fun c => c == '[' || c == ']')).reverse)

/-- Association-list lookup (Python dict `get` / `in`, keyed lookup). -/
def alookup {α β : Type} [DecidableEq α] : List (α × β) → α → Option β
  | [], _ => none
  | (k, v) :: rest, a => if a = k then some v else alookup rest a

/-- Association-list update: Python `d[k] = v` keeps the position of an
existing key and appends a new key at the end. -/
def aupdate {α β : Type} [DecidableEq α] : List (α × β) → α → β → List (α × β)
  | [], a, b => [(a, b)]
  | (k, v) :: rest, a, b => if a = k then (a, b) :: rest else (k, v) :: aupdate rest a b

/-- The attribute vocabulary appearing in cast document entries. -/
inductive Attr where
  | source | target | context | method | function | description
deriving DecidableEq, Repr

/-- The Cast entity (class Cast): identity fields source and target
(keylist), plus the attributes the module reads; attributes a Python
object may lack are Option. -/
structure Cast where
  source : String
  target : String
  context : Option String
  method : Option String
  function : Option String
  description : Option String
deriving DecidableEq, Repr

/-- A freshly constructed `Cast(source=src, target=trg)`. -/
def Cast.mk0 (src trg : String) : Cast :=
  { source := src, target := trg, context := none, method := none,
    function := none, description := none }

/-- CONTEXTS map: single-letter catalog context codes to words. -/
def CONTEXTS : String → Option String
  | "a" => some "assignment"
  | "e" => some "explicit"
  | "i" => some "implicit"
  | _ => none

/-- METHODS map: single-letter catalog method codes to words. -/
def METHODS : String → Option String
  | "f" => some "function"
  | "i" => some "inout"
  | "b" => some "binary coercible"
  | _ => none

/-- Cast.extern_key: the external map key
`cast (<source> as <target>)` (objtype lower-cased). -/
def Cast.extern_key (c : Cast) : String :=
  "cast (" ++ c.source ++ " as " ++ c.target ++ ")"

/-- Cast.identifier: `(<source> AS <target>)`. -/
def Cast.identifier (c : Cast) : String :=
  "(" ++ c.source ++ " AS " ++ c.target ++ ")"

/-- Modelled from the spec: DbObject._base_map is not under src/; per the
spec it projects the non-identity catalog attributes (here: function and
description, identity fields excluded) into the document mapping. -/
def Cast.base_map (c : Cast) : List (Attr × String) :=
  (match c.function with
   | some f => [(Attr.function, f)]
   | none => []) ++
  (match c.description with
   | some d => [(Attr.description, d)]
   | none => [])

/-- Cast.to_map: the base map followed by the context and method codes
expanded to words via CONTEXTS / METHODS (a KeyError models a Python
lookup failure on an unknown code, an AttributeError a missing one). -/
def Cast.to_map (c : Cast) : Except PyErr (List (Attr × String)) :=
  match c.context with
  | none => Except.error (PyErr.attributeError "context")
  | some ctx =>
    match CONTEXTS ctx with
    | none => Except.error (PyErr.keyError ctx)
    | some cw =>
      match c.method with
      | none => Except.error (PyErr.attributeError "method")
      | some m =>
        match METHODS m with
        | none => Except.error (PyErr.keyError m)
        | some mw => Except.ok (c.base_map ++ [(Attr.context, cw), (Attr.method, mw)])

/-- Cast.create (the undecorated body): builds the single CREATE CAST
statement.  The WITH clause: a function attribute wins, else method
`i` gives WITH INOUT, else the `OUT FUNCTION` suffix is appended to
`WITH`, yielding WITHOUT FUNCTION.  The AS clause: AS ASSIGNMENT for
context `a`, AS IMPLICIT for context `i`, empty otherwise. -/
def Cast.create (c : Cast) : Except PyErr (List String) :=
  match (match c.function with
         | some f => Except.ok ("\n    WITH" ++ " FUNCTION " ++ f)
         | none =>
           match c.method with
           | none => Except.error (PyErr.attributeError "method")
           | some m =>
             if m = "i" then Except.ok ("\n    WITH" ++ " INOUT")
             else Except.ok ("\n    WITH" ++ "OUT FUNCTION") :
           Except PyErr String) with
  | Except.error e => Except.error e
  | Except.ok with_clause =>
    match c.context with
    | none => Except.error (PyErr.attributeError "context")
    | some ctx =>
      let as_clause :=
        if ctx = "a" then "\n    AS ASSIGNMENT"
        else if ctx = "i" then "\n    AS IMPLICIT"
        else ""
      Except.ok ["CREATE CAST (" ++ c.source ++ " AS " ++ c.target ++ ")" ++
                 with_clause ++ as_clause]

/-- Modelled from the spec: the commentable decorator (DbObject module,
not under src/) appends a COMMENT statement for the object when a
description attribute is present (Scenario 3). -/
def Cast.createCommented (c : Cast) : Except PyErr (List String) :=
  match c.create with
  | Except.error e => Except.error e
  | Except.ok base =>
    match c.description with
    | some d => Except.ok (base ++ ["COMMENT ON CAST " ++ c.identifier ++ " IS " ++ pyq d])
    | none => Except.ok base

/-- Modelled from the spec: DbObject.drop is not under src/; renderDrop
yields the DROP statement for the object (Scenario 4 shows
`DROP CAST (integer AS text)`). -/
def Cast.drop (c : Cast) : List String := ["DROP CAST " ++ c.identifier]

/-- Python setattr on a Cast for the recognized attribute vocabulary;
note that a `source` or `target` attribute overwrites the identity
field, exactly as setattr does. -/
def Cast.setattr (c : Cast) : Attr → String → Cast
  | Attr.source, v => { c with source := v }
  | Attr.target, v => { c with target := v }
  | Attr.context, v => { c with context := some v }
  | Attr.method, v => { c with method := some v }
  | Attr.function, v => { c with function := some v }
  | Attr.description, v => { c with description := some v }

/-- Modelled from the spec: split_schema_obj (DbObject module, not under
src/) splits a possibly schema-qualified name at the first dot,
defaulting the schema of an unqualified name. -/
def split_schema_obj (obj : String) : String × String :=
  match firstOccur ".".data obj.data with
  | some i => (String.mk (obj.data.take i), String.mk (obj.data.drop (i + 1)))
  | none => ("public", obj)

/-- Modelled from the spec: the slice of the database registry that
Cast.get_implied_deps consults — the types index keyed by
(schema, name), and the external-key index behind db._get_by_extkey.
Entities are represented by their names. -/
structure DbModel where
  types : List ((String × String) × String)
  extkeys : List (String × String)

/-- Modelled from the spec: db._get_by_extkey; per the spec a lookup
failure for a required function is a hard error. -/
def DbModel.get_by_extkey (db : DbModel) (k : String) : Except PyErr String :=
  match alookup db.extkeys k with
  | some e => Except.ok e
  | none => Except.error (PyErr.keyError k)

/-- Cast.get_implied_deps: starting from the base-class result (not
under src/, passed as `base`), look up source and target types after
stripping trailing array brackets, adding each only when found; then
read the method attribute — an AttributeError when it is absent, as the
comparison `self.method == 'f'` accesses it — and when it is `f`,
resolve the cast function through the external-key index and add it. -/
def Cast.get_implied_deps (c : Cast) (db : DbModel) (base : Finset String) :
    Except PyErr (Finset String) :=
  let s := split_schema_obj c.source
  let deps1 : Finset String :=
    match alookup db.types (s.1, pyRstripBr s.2) with
    | some t => insert t base
    | none => base
  let t := split_schema_obj c.target
  let deps2 : Finset String :=
    match alookup db.types (t.1, pyRstripBr t.2) with
    | some ty => insert ty deps1
    | none => deps1
  match c.method with
  | none => Except.error (PyErr.attributeError "method")
  | some m =>
    if m = "f" then
      match c.function with
      | none => Except.error (PyErr.attributeError "function")
      | some f =>
        match db.get_by_extkey ("function " ++ f) with
        | Except.error e => Except.error e
        | Except.ok fe => Except.ok (insert fe deps2)
    else
      Except.ok deps2

/-- The collection of casts (CastDict): a mapping from the
(source, target) identity to the Cast, in insertion order. -/
abbrev CastColl := List ((String × String) × Cast)

namespace CastDict

/-- The key check and slicing at the top of CastDict.from_map's loop
body: reject a key that does not start with `cast (`, or whose
upper-casing does not contain ` AS `, or that does not end in `)`;
otherwise slice out source = key[6:asloc] and
target = key[asloc+4:-1], asloc being the first occurrence of ` AS `
in the upper-cased key. -/
def parseKey (key : String) : Except PyErr (String × String) :=
  if !("cast (".data.isPrefixOf key.data)
      || !(containsSub (upperList key.data) " AS ".data)
      || !(decide (key.data.getLast? = some ')')) then
    Except.error (PyErr.keyError ("Unrecognized object type: " ++ key))
  else
    let asloc := (firstOccur " AS ".data (upperList key.data)).getD 0
    Except.ok (String.mk ((key.data.take asloc).drop 6),
               String.mk ((key.data.take (key.data.length - 1)).drop (asloc + 4)))

/-- One iteration of CastDict.from_map's loop on one document entry:
parse the key, insert the fresh cast into the collection, reject an
empty specification, apply the entry's attributes, check the mandatory
attributes (the second check re-tests `context` exactly as source line
142 does), then normalize context and method to lower-cased initials —
the method normalization raising AttributeError when the attribute is
absent, with the context already normalized on the stored object. -/
def from_map_step (coll : CastColl) (key : String) (incast : List (Attr × String)) :
    CastColl × Option PyErr :=
  match parseKey key with
  | Except.error e => (coll, some e)
  | Except.ok (src, trg) =>
    let cast0 := Cast.mk0 src trg
    let coll1 := aupdate coll (src, trg) cast0
    if incast.isEmpty then
      (coll1, some (PyErr.valueError
        ("Cast " ++ pyq (String.mk (key.data.drop 5)) ++ " has no specification")))
    else
      let cast1 := incast.foldl (fun c av => c.setattr av.1 av.2) cast0
      let coll2 := aupdate coll1 (src, trg) cast1
      if cast1.context.isNone then
        (coll2, some (PyErr.valueError
          ("Cast " ++ pyq (String.mk (key.data.drop 5)) ++ " missing context")))
      else if cast1.context.isNone then
        (coll2, some (PyErr.valueError
          ("Cast " ++ pyq (String.mk (key.data.drop 5)) ++ " missing method")))
      else
        let cast2 := { cast1 with context := some (lower1 (cast1.context.getD "")) }
        match cast2.method with
        | none => (aupdate coll2 (src, trg) cast2, some (PyErr.attributeError "method"))
        | some m =>
          let cast3 := { cast2 with method := some (lower1 m) }
          (aupdate coll2 (src, trg) cast3, none)

/-- CastDict.from_map over the document entries in order, stopping at the
first raised error and returning the collection state reached by then. -/
def from_map (coll : CastColl) : List (String × List (Attr × String)) →
    CastColl × Option PyErr
  | [] => (coll, none)
  | (key, incast) :: rest =>
    match from_map_step coll key incast with
    | (c, none) => from_map c rest
    | (c, some e) => (c, some e)

end CastDict

/-- Modelled from the spec: DbObject.diff_map (the entity-level diff,
not under src/) yields nothing when the attributes agree and otherwise
drops and recreates the cast, no in-place ALTER CAST existing
(Scenario 2). -/
def Cast.diff_map_entity (old new : Cast) : Except PyErr (List String) :=
  if old.context = new.context ∧ old.method = new.method ∧ old.function = new.function
      ∧ old.description = new.description then
    Except.ok []
  else
    match new.createCommented with
    | Except.error e => Except.error e
    | Except.ok cr => Except.ok (old.drop ++ cr)

/-- The statement accumulator of CastDict._diff_map: a defaultdict(list)
from the owning Cast to the list of appended statement chunks, in
insertion order. -/
abbrev StmtGroups := List (Cast × List (List String))

/-- Python stmts[k].append(v) on the defaultdict model. -/
def appendGroup (g : StmtGroups) (k : Cast) (v : List String) : StmtGroups :=
  match g with
  | [] => [(k, [v])]
  | (k0, vs) :: rest =>
    if k = k0 then (k0, vs ++ [v]) :: rest else (k0, vs) :: appendGroup rest k v

namespace CastDict

/-- The first loop of CastDict._diff_map over the input casts: a create
for an identity absent from the database, an entity-level diff
otherwise, each appended under the input cast; the returned Option Cast
is the final value of the loop variable `incast` (none when the loop
never ran). -/
def diffNewLoop (self : CastColl) : List ((String × String) × Cast) → StmtGroups →
    Option Cast → Except PyErr (StmtGroups × Option Cast)
  | [], g, last => Except.ok (g, last)
  | (k, incast) :: rest, g, _ =>
    match alookup self k with
    | none =>
      match incast.createCommented with
      | Except.error e => Except.error e
      | Except.ok cr => diffNewLoop self rest (appendGroup g incast cr) (some incast)
    | some cur =>
      match cur.diff_map_entity incast with
      | Except.error e => Except.error e
      | Except.ok d => diffNewLoop self rest (appendGroup g incast d) (some incast)

/-- The second loop of CastDict._diff_map over the existing casts: a
cast whose identity is absent from the input map is marked for
dropping — the drop being appended under `stmts[incast]`, the loop
variable left over from the first loop (source line 180); when the
first loop never ran that variable is unbound and Python raises a
NameError. -/
def diffDropLoop (incasts : CastColl) : List ((String × String) × Cast) → StmtGroups →
    Option Cast → Except PyErr StmtGroups
  | [], g, _ => Except.ok g
  | (k, cast) :: rest, g, last =>
    if (alookup incasts k).isSome then diffDropLoop incasts rest g last
    else
      match last with
      | none => Except.error (PyErr.nameError "incast")
      | some inc => diffDropLoop incasts rest (appendGroup g inc cast.drop) last

/-- CastDict._diff_map: run the input-cast loop, then the existing-cast
loop, over a current collection `self` and an input map `incasts`. -/
def _diff_map (self incasts : CastColl) : Except PyErr StmtGroups :=
  match diffNewLoop self incasts [] none with
  | Except.error e => Except.error e
  | Except.ok (g, last) => diffDropLoop incasts self g last

end CastDict


/-- Python `pat in s` on strings. -/
def strContains (s pat : String) : Bool := containsSub s.data pat.data

/-! Concrete casts used by several of the claim checks below. -/

/-- A catalog cast (integer AS text), assignment context, binary coercible. -/
def curCast : Cast :=
  { source := "integer", target := "text", context := some "a",
    method := some "b", function := none, description := none }

/-- An input cast (smallint AS bigint), implicit context, binary coercible. -/
def newCast : Cast :=
  { source := "smallint", target := "bigint", context := some "i",
    method := some "b", function := none, description := none }

/-- An input cast (abc AS def), explicit context. -/
def inCastA : Cast :=
  { source := "abc", target := "def", context := some "e",
    method := some "b", function := none, description := none }

/-- An input cast (ghi AS jkl), assignment context. -/
def inCastB : Cast :=
  { source := "ghi", target := "jkl", context := some "a",
    method := some "b", function := none, description := none }

/-- C1: the claim says a dropped cast's statement group is keyed by the
dropped cast itself, and that with an empty desired map the result is
exactly the drops of the current casts.  The code instead appends the
drop under the stale first-loop variable `incast` (source line 180): with
an empty desired map that variable is unbound, so the run fails with a
NameError instead of producing the drop; with a non-empty desired map
the drop lands in the group of the last-iterated desired cast, not the
dropped cast's group. -/
theorem C1_diff_map_drop_miskeyed :
    CastDict._diff_map [(("integer", "text"), curCast)] [] =
      Except.error (PyErr.nameError "incast") ∧
    CastDict._diff_map [(("integer", "text"), curCast)]
        [(("smallint", "bigint"), newCast)] =
      Except.ok [(newCast,
        [["CREATE CAST (smallint AS bigint)\n    WITHOUT FUNCTION\n    AS IMPLICIT"],
         ["DROP CAST (integer AS text)"]])] ∧
    newCast ≠ curCast :=
  ⟨rfl, rfl, by decide⟩

/-- C3: a desired-state entry missing the mandatory `method` attribute
does not fail with the message naming the cast and the attribute: the
second mandatory-attribute check re-tests `context` (source line 142),
so the run instead dies on the attribute access `cast.method` with an
AttributeError naming only the attribute; the `context` half of the
claim does behave as stated, with a ValueError naming the cast. -/
theorem C3_missing_method_wrong_error :
    CastDict.from_map [] [("cast (integer AS text)", [(Attr.context, "explicit")])] =
      ([(("integer", "text"),
         { source := "integer", target := "text", context := some "e",
           method := none, function := none, description := none })],
       some (PyErr.attributeError "method")) ∧
    CastDict.from_map [] [("cast (integer AS text)", [(Attr.method, "function")])] =
      ([(("integer", "text"),
         { source := "integer", target := "text", context := none,
           method := some "function", function := none, description := none })],
       some (PyErr.valueError "Cast \x27(integer AS text)\x27 missing context")) :=
  ⟨rfl, rfl⟩

/-- C4 counterexample: for the explicit-context cast by function of the
claim, Cast.create produces a statement with no AS clause at all — the
output does not even contain the text AS EXPLICIT, let alone end with
it. -/
theorem C4_no_as_explicit_cex :
    Cast.create { source := "integer", target := "text", context := some "e",
                  method := some "f", function := some "myfunc", description := none } =
      Except.ok ["CREATE CAST (integer AS text)\n    WITH FUNCTION myfunc"] ∧
    strContains "CREATE CAST (integer AS text)\n    WITH FUNCTION myfunc"
      "AS EXPLICIT" = false :=
  ⟨rfl, by decide⟩

/-- C4 (amended): for every cast with context code e and a function
attribute, Cast.create returns the single statement
CREATE CAST (source AS target) followed only by the WITH FUNCTION
clause; the explicit context renders an empty AS clause (only contexts
a and i append one). -/
theorem C4_explicit_function_create (c : Cast) (f : String)
    (hc : c.context = some "e") (hf : c.function = some f) :
    c.create = Except.ok ["CREATE CAST (" ++ c.source ++ " AS " ++ c.target ++
      ")\n    WITH FUNCTION " ++ f] := by
  simp [Cast.create, hc, hf]
  have h : (")" : String) ++ "\n    WITH FUNCTION " = ")\n    WITH FUNCTION " := rfl
  rw [← String.append_assoc, String.append_assoc _ ")" "\n    WITH FUNCTION ", h]

/-- Witness for C4_explicit_function_create at a concrete cast. -/
theorem C4_explicit_function_create_witness :
    Cast.create { source := "integer", target := "text", context := some "e",
                  method := some "f", function := some "myfunc", description := none } =
      Except.ok ["CREATE CAST (integer AS text)\n    WITH FUNCTION myfunc"] :=
  C4_explicit_function_create _ "myfunc" rfl rfl

/-- C5: the claim says _diff_map is insensitive to the traversal order
of its inputs because identities are iterated in a total order.  The
code iterates both dicts in insertion order, and the drop mis-keying of
source line 180 makes the result depend on it: permuting two desired
entries moves the drop statement of a removed cast from one desired
cast's group to the other's. -/
theorem C5_diff_map_order_dependent :
    CastDict._diff_map [(("integer", "text"), curCast)]
        [(("abc", "def"), inCastA), (("ghi", "jkl"), inCastB)] =
      Except.ok [(inCastA, [["CREATE CAST (abc AS def)\n    WITHOUT FUNCTION"]]),
                 (inCastB, [["CREATE CAST (ghi AS jkl)\n    WITHOUT FUNCTION\n    AS ASSIGNMENT"],
                            ["DROP CAST (integer AS text)"]])] ∧
    CastDict._diff_map [(("integer", "text"), curCast)]
        [(("ghi", "jkl"), inCastB), (("abc", "def"), inCastA)] =
      Except.ok [(inCastB, [["CREATE CAST (ghi AS jkl)\n    WITHOUT FUNCTION\n    AS ASSIGNMENT"]]),
                 (inCastA, [["CREATE CAST (abc AS def)\n    WITHOUT FUNCTION"],
                            ["DROP CAST (integer AS text)"]])] ∧
    [(inCastA, [["CREATE CAST (abc AS def)\n    WITHOUT FUNCTION"]]),
     (inCastB, [["CREATE CAST (ghi AS jkl)\n    WITHOUT FUNCTION\n    AS ASSIGNMENT"],
                ["DROP CAST (integer AS text)"]])] ≠
    ([(inCastB, [["CREATE CAST (ghi AS jkl)\n    WITHOUT FUNCTION\n    AS ASSIGNMENT"]]),
      (inCastA, [["CREATE CAST (abc AS def)\n    WITHOUT FUNCTION"],
                 ["DROP CAST (integer AS text)"]])] : StmtGroups) :=
  ⟨rfl, rfl, by decide⟩

/-- C7: a desired-state document key that does not start with `cast (`,
or whose upper-casing lacks the ` AS ` delimiter, or that does not end
in `)`, makes CastDict.from_map fail with a KeyError naming the
offending key, leaving the collection untouched at that entry (no cast
inserted, no attribute applied) and the remaining entries unread. -/
theorem C7_malformed_key_rejected (coll : CastColl) (key : String)
    (entry : List (Attr × String)) (rest : List (String × List (Attr × String)))
    (h : "cast (".data.isPrefixOf key.data = false ∨
         containsSub (upperList key.data) " AS ".data = false ∨
         key.data.getLast? ≠ some ')') :
    CastDict.from_map coll ((key, entry) :: rest) =
      (coll, some (PyErr.keyError ("Unrecognized object type: " ++ key))) := by
  have hc : (!("cast (".data.isPrefixOf key.data)
      || !(containsSub (upperList key.data) " AS ".data)
      || !(decide (key.data.getLast? = some ')'))) = true := by
    rcases h with h | h | h <;> simp [h]
  simp [CastDict.from_map, CastDict.from_map_step, CastDict.parseKey, hc]

/-- Witness for C7_malformed_key_rejected on the key of Scenario 5. -/
theorem C7_malformed_key_rejected_witness :
    CastDict.from_map [] [("badcast (integer AS text)", [])] =
      ([], some (PyErr.keyError "Unrecognized object type: badcast (integer AS text)")) :=
  C7_malformed_key_rejected [] "badcast (integer AS text)" [] [] (Or.inl (by decide))


/-- A pattern is a substring exactly when it is an infix of the
character list. -/
theorem containsSub_iff_infix (s pat : List Char) :
    containsSub s pat = true ↔ pat <:+: s := by
  induction s with
  | nil =>
    constructor
    · intro h
      by_cases hp : pat.isPrefixOf ([] : List Char)
      · exact (List.isPrefixOf_iff_prefix.mp hp).isInfix
      · simp [containsSub, firstOccur, hp] at h
    · intro h
      have hnil : pat = [] := List.eq_nil_of_infix_nil h
      subst hnil
      rfl
  | cons c rest ih =>
    by_cases hp : pat.isPrefixOf (c :: rest)
    · simp only [containsSub, firstOccur, hp, if_true, Option.isSome_some, true_iff]
      exact (List.isPrefixOf_iff_prefix.mp hp).isInfix
    · have h1 : containsSub (c :: rest) pat = containsSub rest pat := by
        simp [containsSub, firstOccur, hp]
      rw [h1, ih, List.infix_cons_iff]
      constructor
      · exact Or.inr
      · rintro (h | h)
        · exact absurd (List.isPrefixOf_iff_prefix.mpr h) hp
        · exact h

/-- C6: in Cast.create the WITH clause branches in this order: a
function attribute yields a statement containing WITH FUNCTION with the
function name; otherwise method i yields WITH INOUT; otherwise (no
function attribute, any other method) the statement contains the full
WITHOUT FUNCTION clause. -/
theorem C6_with_clause_branches (c : Cast) (hc : c.context.isSome = true) :
    (∀ f, c.function = some f → ∃ s, c.create = Except.ok [s] ∧
      strContains s ("WITH FUNCTION " ++ f) = true) ∧
    (c.function = none → c.method = some "i" → ∃ s, c.create = Except.ok [s] ∧
      strContains s "WITH INOUT" = true) ∧
    (∀ m, c.function = none → c.method = some m → m ≠ "i" →
      ∃ s, c.create = Except.ok [s] ∧
      strContains s "WITHOUT FUNCTION" = true) := by
  obtain ⟨ctx, hctx⟩ := Option.isSome_iff_exists.mp hc
  refine ⟨fun f hf => ?_, fun hf hm => ?_, fun m hf hm hmi => ?_⟩
  · refine ⟨"CREATE CAST (" ++ c.source ++ " AS " ++ c.target ++ ")" ++
      ("\n    WITH" ++ " FUNCTION " ++ f) ++
      (if ctx = "a" then "\n    AS ASSIGNMENT"
       else if ctx = "i" then "\n    AS IMPLICIT" else ""), ?_, ?_⟩
    · simp [Cast.create, hf, hctx]
    · rw [strContains, containsSub_iff_infix]
      refine ⟨("CREATE CAST (" ++ c.source ++ " AS " ++ c.target ++ ")\n    ").data,
        (if ctx = "a" then "\n    AS ASSIGNMENT"
         else if ctx = "i" then "\n    AS IMPLICIT" else "" : String).data, ?_⟩
      have hW : ∀ R : List Char,
          (")" : String).data ++ (("\n    WITH" : String).data ++
            ((" FUNCTION " : String).data ++ R)) =
          (")\n    " : String).data ++ (("WITH FUNCTION " : String).data ++ R) :=
        fun R => rfl
      simp only [String.data_append, List.append_assoc, hW]
  · refine ⟨"CREATE CAST (" ++ c.source ++ " AS " ++ c.target ++ ")" ++
      ("\n    WITH" ++ " INOUT") ++
      (if ctx = "a" then "\n    AS ASSIGNMENT"
       else if ctx = "i" then "\n    AS IMPLICIT" else ""), ?_, ?_⟩
    · simp [Cast.create, hf, hm, hctx]
    · rw [strContains, containsSub_iff_infix]
      refine ⟨("CREATE CAST (" ++ c.source ++ " AS " ++ c.target ++ ")\n    ").data,
        (if ctx = "a" then "\n    AS ASSIGNMENT"
         else if ctx = "i" then "\n    AS IMPLICIT" else "" : String).data, ?_⟩
      have hW : ∀ R : List Char,
          (")" : String).data ++ (("\n    WITH" : String).data ++
            ((" INOUT" : String).data ++ R)) =
          (")\n    " : String).data ++ (("WITH INOUT" : String).data ++ R) :=
        fun R => rfl
      simp only [String.data_append, List.append_assoc, hW]
  · refine ⟨"CREATE CAST (" ++ c.source ++ " AS " ++ c.target ++ ")" ++
      ("\n    WITH" ++ "OUT FUNCTION") ++
      (if ctx = "a" then "\n    AS ASSIGNMENT"
       else if ctx = "i" then "\n    AS IMPLICIT" else ""), ?_, ?_⟩
    · simp [Cast.create, hf, hm, hmi, hctx]
    · rw [strContains, containsSub_iff_infix]
      refine ⟨("CREATE CAST (" ++ c.source ++ " AS " ++ c.target ++ ")\n    ").data,
        (if ctx = "a" then "\n    AS ASSIGNMENT"
         else if ctx = "i" then "\n    AS IMPLICIT" else "" : String).data, ?_⟩
      have hW : ∀ R : List Char,
          (")" : String).data ++ (("\n    WITH" : String).data ++
            (("OUT FUNCTION" : String).data ++ R)) =
          (")\n    " : String).data ++ (("WITHOUT FUNCTION" : String).data ++ R) :=
        fun R => rfl
      simp only [String.data_append, List.append_assoc, hW]

/-- The explicit cast by function used as a concrete witness input. -/
def fnCast : Cast :=
  { source := "integer", target := "text", context := some "e",
    method := some "f", function := some "myfunc", description := none }

/-- Witness for C6_with_clause_branches: the function branch at a
concrete cast. -/
theorem C6_with_clause_branches_witness :
    ∃ s, Cast.create fnCast = Except.ok [s] ∧
      strContains s ("WITH FUNCTION " ++ "myfunc") = true :=
  (C6_with_clause_branches fnCast rfl).1 "myfunc" rfl

/-- C8: Cast.get_implied_deps looks the source and target types up
after stripping trailing array brackets, adds each exactly when its
lookup succeeds and never fails on a type lookup; when the method is f
it also adds the entity resolved for the cast function through the
external-key index; and a cast with no method attribute at all fails
with the AttributeError that the method comparison raises. -/
theorem C8_implied_deps (c : Cast) (db : DbModel) (base : Finset String) :
    (∀ m, c.method = some m → m ≠ "f" →
      ∃ d, c.get_implied_deps db base = Except.ok d ∧
        ∀ x, x ∈ d ↔ x ∈ base
          ∨ alookup db.types ((split_schema_obj c.source).1,
              pyRstripBr (split_schema_obj c.source).2) = some x
          ∨ alookup db.types ((split_schema_obj c.target).1,
              pyRstripBr (split_schema_obj c.target).2) = some x) ∧
    (∀ f fe, c.method = some "f" → c.function = some f →
      alookup db.extkeys ("function " ++ f) = some fe →
      ∃ d, c.get_implied_deps db base = Except.ok d ∧ fe ∈ d ∧
        ∀ x, x ∈ d ↔ x = fe ∨ x ∈ base
          ∨ alookup db.types ((split_schema_obj c.source).1,
              pyRstripBr (split_schema_obj c.source).2) = some x
          ∨ alookup db.types ((split_schema_obj c.target).1,
              pyRstripBr (split_schema_obj c.target).2) = some x) ∧
    (c.method = none →
      c.get_implied_deps db base = Except.error (PyErr.attributeError "method")) := by
  refine ⟨?_, ?_, ?_⟩
  · intro m hm hmf
    rcases hs : alookup db.types ((split_schema_obj c.source).1,
        pyRstripBr (split_schema_obj c.source).2) with _ | ts <;>
    rcases ht : alookup db.types ((split_schema_obj c.target).1,
        pyRstripBr (split_schema_obj c.target).2) with _ | tt
    · exact ⟨base,
        by simp only [Cast.get_implied_deps, hs, ht, hm]; rw [if_neg hmf],
        fun x => by simp [hs, ht]⟩
    · exact ⟨insert tt base,
        by simp only [Cast.get_implied_deps, hs, ht, hm]; rw [if_neg hmf],
        fun x => by simp [Finset.mem_insert, hs, ht, eq_comm] <;> tauto⟩
    · exact ⟨insert ts base,
        by simp only [Cast.get_implied_deps, hs, ht, hm]; rw [if_neg hmf],
        fun x => by simp [Finset.mem_insert, hs, ht, eq_comm] <;> tauto⟩
    · exact ⟨insert tt (insert ts base),
        by simp only [Cast.get_implied_deps, hs, ht, hm]; rw [if_neg hmf],
        fun x => by simp [Finset.mem_insert, hs, ht, eq_comm] <;> tauto⟩
  · intro f fe hm hf hfe
    rcases hs : alookup db.types ((split_schema_obj c.source).1,
        pyRstripBr (split_schema_obj c.source).2) with _ | ts <;>
    rcases ht : alookup db.types ((split_schema_obj c.target).1,
        pyRstripBr (split_schema_obj c.target).2) with _ | tt
    · exact ⟨insert fe base,
        by simp [Cast.get_implied_deps, DbModel.get_by_extkey, hs, ht, hm, hf, hfe],
        by simp,
        fun x => by simp [Finset.mem_insert, hs, ht, eq_comm] <;> tauto⟩
    · exact ⟨insert fe (insert tt base),
        by simp [Cast.get_implied_deps, DbModel.get_by_extkey, hs, ht, hm, hf, hfe],
        by simp,
        fun x => by simp [Finset.mem_insert, hs, ht, eq_comm] <;> tauto⟩
    · exact ⟨insert fe (insert ts base),
        by simp [Cast.get_implied_deps, DbModel.get_by_extkey, hs, ht, hm, hf, hfe],
        by simp,
        fun x => by simp [Finset.mem_insert, hs, ht, eq_comm] <;> tauto⟩
    · exact ⟨insert fe (insert tt (insert ts base)),
        by simp [Cast.get_implied_deps, DbModel.get_by_extkey, hs, ht, hm, hf, hfe],
        by simp,
        fun x => by simp [Finset.mem_insert, hs, ht, eq_comm] <;> tauto⟩
  · intro hmn
    rcases hs : alookup db.types ((split_schema_obj c.source).1,
        pyRstripBr (split_schema_obj c.source).2) with _ | ts <;>
    rcases ht : alookup db.types ((split_schema_obj c.target).1,
        pyRstripBr (split_schema_obj c.target).2) with _ | tt <;>
    simp [Cast.get_implied_deps, hs, ht, hmn]

/-- A function-method cast over an array of a schema-qualified modeled
type, used as a concrete witness input. -/
def depCast : Cast :=
  { source := "public.myint[]", target := "text", context := some "e",
    method := some "f", function := some "myfunc", description := none }

/-- The database registry slice used as a concrete witness input. -/
def depDb : DbModel :=
  { types := [(("public", "myint"), "type myint")],
    extkeys := [("function myfunc", "function myfunc")] }

/-- Witness for C8_implied_deps at the concrete cast and registry. -/
theorem C8_implied_deps_witness :
    ∃ d, Cast.get_implied_deps depCast depDb ∅ = Except.ok d ∧
      "function myfunc" ∈ d ∧
      ∀ x, x ∈ d ↔ x = "function myfunc" ∨ x ∈ (∅ : Finset String)
        ∨ alookup depDb.types
            ((split_schema_obj depCast.source).1,
             pyRstripBr (split_schema_obj depCast.source).2) = some x
        ∨ alookup depDb.types
            ((split_schema_obj depCast.target).1,
             pyRstripBr (split_schema_obj depCast.target).2) = some x :=
  (C8_implied_deps depCast depDb ∅).2.1 "myfunc" "function myfunc" rfl rfl rfl


/-- Looking a key up after an update: the updated key maps to the new
value, every other key is unchanged. -/
theorem alookup_aupdate {α β : Type} [DecidableEq α] (l : List (α × β)) (k : α)
    (v : β) (a : α) :
    alookup (aupdate l k v) a = if a = k then some v else alookup l a := by
  induction l with
  | nil => simp [aupdate, alookup]
  | cons hd tl ih =>
    obtain ⟨k0, v0⟩ := hd
    by_cases hk : k = k0
    · subst hk
      by_cases ha : a = k <;> simp [aupdate, alookup, ha]
    · by_cases ha : a = k0
      · subst ha
        have hak : ¬ a = k := fun h => hk h.symm
        simp [aupdate, alookup, hk, hak]
      · simp [aupdate, alookup, hk, ha, ih]

/-- Applying an attribute list that touches neither `source` nor
`target` leaves the identity fields unchanged. -/
theorem foldl_setattr_id_fields (l : List (Attr × String)) (c : Cast)
    (h : ∀ av ∈ l, av.1 ≠ Attr.source ∧ av.1 ≠ Attr.target) :
    (l.foldl (fun c av => c.setattr av.1 av.2) c).source = c.source ∧
    (l.foldl (fun c av => c.setattr av.1 av.2) c).target = c.target := by
  induction l generalizing c with
  | nil => exact ⟨rfl, rfl⟩
  | cons hd tl ih =>
    obtain ⟨a, v⟩ := hd
    obtain ⟨ha1, ha2⟩ := h (a, v) (by simp)
    have hstep : (c.setattr a v).source = c.source ∧
        (c.setattr a v).target = c.target := by
      cases a <;> simp_all [Cast.setattr]
    have hrec := ih (fun av hav => h av (by simp [hav])) (c := c.setattr a v)
    simp only [List.foldl_cons]
    exact ⟨hrec.1.trans hstep.1, hrec.2.trans hstep.2⟩

/-- Applying an attribute list with no `context` attribute leaves the
context field unchanged. -/
theorem foldl_setattr_context (l : List (Attr × String)) (c : Cast)
    (h : ∀ av ∈ l, av.1 ≠ Attr.context) :
    (l.foldl (fun c av => c.setattr av.1 av.2) c).context = c.context := by
  induction l generalizing c with
  | nil => rfl
  | cons hd tl ih =>
    obtain ⟨a, v⟩ := hd
    have ha := h (a, v) (by simp)
    have hstep : (c.setattr a v).context = c.context := by
      cases a <;> simp_all [Cast.setattr]
    have hrec := ih (fun av hav => h av (by simp [hav])) (c := c.setattr a v)
    simp only [List.foldl_cons]
    exact hrec.trans hstep

/-- C9 counterexample: a document entry whose attribute mapping itself
contains a `source` key overwrites the cast's identity field through
setattr, so the constructed cast's source is the forged value, not the
one parsed from the key (the collection key still being the parsed
identity). -/
theorem C9_identity_overwritten_cex :
    CastDict.from_map [] [("cast (integer AS text)",
      [(Attr.source, "forged"), (Attr.context, "explicit"), (Attr.method, "function")])] =
    ([(("integer", "text"),
       { source := "forged", target := "text", context := some "e",
         method := some "f", function := none, description := none })], none) ∧
    "forged" ≠ "integer" :=
  ⟨rfl, by decide⟩

/-- Updating a collection at a key with a cast carrying that key keeps
the invariant that every stored cast carries the source and target of
its collection key. -/
theorem aupdate_key_invariant (coll : CastColl) (s t : String) (c0 : Cast)
    (h0 : ∀ k c, alookup coll k = some c → c.source = k.1 ∧ c.target = k.2)
    (hs : c0.source = s) (ht : c0.target = t) :
    ∀ k c, alookup (aupdate coll (s, t) c0) k = some c →
      c.source = k.1 ∧ c.target = k.2 := by
  intro k c hc
  rw [alookup_aupdate] at hc
  by_cases hk : k = (s, t)
  · subst hk
    rw [if_pos rfl] at hc
    cases hc
    exact ⟨hs, ht⟩
  · rw [if_neg hk] at hc
    exact h0 k c hc

/-- One from_map loop iteration keeps the invariant that every cast in
the collection carries the source and target of its collection key,
provided the entry's attributes contain no source or target key. -/
theorem from_map_step_key_invariant (coll : CastColl) (key : String)
    (entry : List (Attr × String))
    (h0 : ∀ k c, alookup coll k = some c → c.source = k.1 ∧ c.target = k.2)
    (hattr : ∀ av ∈ entry, av.1 ≠ Attr.source ∧ av.1 ≠ Attr.target) :
    ∀ k c, alookup (CastDict.from_map_step coll key entry).1 k = some c →
      c.source = k.1 ∧ c.target = k.2 := by
  rcases hp : CastDict.parseKey key with e | st
  · simp only [CastDict.from_map_step, hp]
    exact h0
  · obtain ⟨src, trg⟩ := st
    have hfold := foldl_setattr_id_fields entry (Cast.mk0 src trg) hattr
    have inv1 := aupdate_key_invariant coll src trg (Cast.mk0 src trg) h0 rfl rfl
    have inv2 := aupdate_key_invariant (aupdate coll (src, trg) (Cast.mk0 src trg))
      src trg (entry.foldl (fun c av => c.setattr av.1 av.2) (Cast.mk0 src trg))
      inv1 hfold.1 hfold.2
    simp only [CastDict.from_map_step, hp]
    split
    · exact inv1
    · split
      · exact inv2
      · split
        · exact aupdate_key_invariant _ src trg _ inv2 hfold.1 hfold.2
        · exact aupdate_key_invariant _ src trg _ inv2 hfold.1 hfold.2

/-- C9 (amended): the collection key is the identity parsed from the
document key, and as long as no entry's attribute mapping contains a
`source` or `target` key, every cast built by CastDict.from_map carries
exactly the source and target of its collection key; an entry that does
contain such a key overwrites the identity fields (see the
counterexample). -/
theorem C9_identity_matches_key (incasts : List (String × List (Attr × String)))
    (coll0 : CastColl)
    (h0 : ∀ k c, alookup coll0 k = some c → c.source = k.1 ∧ c.target = k.2)
    (hattr : ∀ e ∈ incasts, ∀ av ∈ e.2, av.1 ≠ Attr.source ∧ av.1 ≠ Attr.target)
    (k : String × String) (c : Cast)
    (hc : alookup (CastDict.from_map coll0 incasts).1 k = some c) :
    c.source = k.1 ∧ c.target = k.2 := by
  induction incasts generalizing coll0 with
  | nil =>
    rw [CastDict.from_map] at hc
    exact h0 k c hc
  | cons hd tl ih =>
    obtain ⟨key, entry⟩ := hd
    have hstep := from_map_step_key_invariant coll0 key entry h0
      (hattr (key, entry) (by simp))
    rw [CastDict.from_map] at hc
    rcases hs : CastDict.from_map_step coll0 key entry with ⟨c1, oe⟩
    rw [hs] at hc hstep
    cases oe
    · simp only at hc hstep
      exact ih c1 hstep (fun e he => hattr e (by simp [he])) hc
    · simp only at hc hstep
      exact hstep k c hc

/-- Witness for C9_identity_matches_key on a one-entry document. -/
theorem C9_identity_matches_key_witness :
    ({ source := "integer", target := "text", context := some "e",
       method := some "f", function := none, description := none } : Cast).source =
      ("integer", "text").1 ∧
    ({ source := "integer", target := "text", context := some "e",
       method := some "f", function := none, description := none } : Cast).target =
      ("integer", "text").2 :=
  C9_identity_matches_key
    [("cast (integer AS text)", [(Attr.context, "explicit"), (Attr.method, "function")])]
    [] (fun k c h => by simp [alookup] at h) (by decide) ("integer", "text") _ rfl


/-- Running from_map over a concatenation: when the first part raises no
error, the run continues over the second part from the collection the
first part built. -/
theorem from_map_append_ok (l1 : List (String × List (Attr × String)))
    (coll : CastColl) (c : CastColl)
    (h : CastDict.from_map coll l1 = (c, none))
    (l2 : List (String × List (Attr × String))) :
    CastDict.from_map coll (l1 ++ l2) = CastDict.from_map c l2 := by
  induction l1 generalizing coll with
  | nil =>
    rw [CastDict.from_map] at h
    injection h with h1 h2
    subst h1
    rfl
  | cons hd tl ih =>
    obtain ⟨key, entry⟩ := hd
    rw [CastDict.from_map] at h
    rw [List.cons_append, CastDict.from_map]
    rcases hs : CastDict.from_map_step coll key entry with ⟨c1, oe⟩
    rw [hs] at h
    cases oe with
    | none => exact ih c1 h
    | some e =>
      have h2 : (c1, some e) = (c, none) := h
      simp at h2

/-- A from_map entry whose key parses but whose specification is empty
or lacks a context attribute makes the iteration fail with the fresh
cast for the parsed identity already inserted and every earlier key
still present. -/
theorem from_map_step_fails (coll : CastColl) (key : String)
    (entry : List (Attr × String)) (src trg : String)
    (hp : CastDict.parseKey key = Except.ok (src, trg))
    (hbad : entry = [] ∨ ∀ av ∈ entry, av.1 ≠ Attr.context) :
    ∃ err, (CastDict.from_map_step coll key entry).2 = some err ∧
      (alookup (CastDict.from_map_step coll key entry).1 (src, trg)).isSome = true ∧
      ∀ k, (alookup coll k).isSome = true →
        (alookup (CastDict.from_map_step coll key entry).1 k).isSome = true := by
  by_cases he : entry.isEmpty
  · have hred : CastDict.from_map_step coll key entry =
        (aupdate coll (src, trg) (Cast.mk0 src trg),
         some (PyErr.valueError
           ("Cast " ++ pyq (String.mk (key.data.drop 5)) ++ " has no specification"))) := by
      simp only [CastDict.from_map_step, hp]
      rw [if_pos he]
    refine ⟨PyErr.valueError
      ("Cast " ++ pyq (String.mk (key.data.drop 5)) ++ " has no specification"),
      by rw [hred], ?_, ?_⟩
    · rw [hred]
      simp [alookup_aupdate]
    · intro k hk
      rw [hred]
      simp only [alookup_aupdate]
      by_cases hkk : k = (src, trg)
      · simp [hkk]
      · simp [hkk, hk]
  · have hnc : ∀ av ∈ entry, av.1 ≠ Attr.context := by
      rcases hbad with hnil | hnc
      · subst hnil
        exact absurd rfl he
      · exact hnc
    have hcx : (entry.foldl (fun c av => c.setattr av.1 av.2) (Cast.mk0 src trg)).context =
        none := foldl_setattr_context entry (Cast.mk0 src trg) hnc
    have hred : CastDict.from_map_step coll key entry =
        (aupdate (aupdate coll (src, trg) (Cast.mk0 src trg)) (src, trg)
          (entry.foldl (fun c av => c.setattr av.1 av.2) (Cast.mk0 src trg)),
         some (PyErr.valueError
           ("Cast " ++ pyq (String.mk (key.data.drop 5)) ++ " missing context"))) := by
      simp only [CastDict.from_map_step, hp]
      rw [if_neg he, hcx]
      rfl
    refine ⟨PyErr.valueError
      ("Cast " ++ pyq (String.mk (key.data.drop 5)) ++ " missing context"),
      by rw [hred], ?_, ?_⟩
    · rw [hred]
      simp [alookup_aupdate]
    · intro k hk
      rw [hred]
      simp only [alookup_aupdate]
      by_cases hkk : k = (src, trg)
      · simp [hkk]
      · simp [hkk, hk]

/-- C10: CastDict.from_map is not atomic on failure: the new cast is
inserted into the collection before the entry is validated, so when an
entry with a well-formed key fails (empty specification, or missing
mandatory context attribute) the returned collection already contains
the cast for the failing key together with every cast parsed from the
earlier entries. -/
theorem C10_from_map_not_atomic (coll0 : CastColl)
    (pre : List (String × List (Attr × String))) (key : String)
    (entry : List (Attr × String)) (rest : List (String × List (Attr × String)))
    (collPre : CastColl) (src trg : String)
    (h1 : CastDict.from_map coll0 pre = (collPre, none))
    (hp : CastDict.parseKey key = Except.ok (src, trg))
    (hbad : entry = [] ∨ ∀ av ∈ entry, av.1 ≠ Attr.context) :
    ∃ err,
      CastDict.from_map coll0 (pre ++ (key, entry) :: rest) =
        ((CastDict.from_map_step collPre key entry).1, some err) ∧
      (alookup (CastDict.from_map_step collPre key entry).1 (src, trg)).isSome = true ∧
      ∀ k, (alookup collPre k).isSome = true →
        (alookup (CastDict.from_map_step collPre key entry).1 k).isSome = true := by
  obtain ⟨err, he, hmem, hpres⟩ := from_map_step_fails collPre key entry src trg hp hbad
  refine ⟨err, ?_, hmem, hpres⟩
  rw [from_map_append_ok pre coll0 collPre h1, CastDict.from_map]
  rcases hs : CastDict.from_map_step collPre key entry with ⟨c1, oe⟩
  rw [hs] at he
  have he2 : oe = some err := he
  subst he2
  rfl

/-- The collection built from the successful first entry of the C10
witness document. -/
def preColl : CastColl :=
  [(("integer", "text"),
    { source := "integer", target := "text", context := some "e",
      method := some "f", function := none, description := none })]

/-- Witness for C10_from_map_not_atomic: a two-entry document whose
second entry has an empty specification. -/
theorem C10_from_map_not_atomic_witness :
    ∃ err,
      CastDict.from_map []
          ([("cast (integer AS text)",
             [(Attr.context, "explicit"), (Attr.method, "function")])] ++
           ("cast (smallint AS bigint)", ([] : List (Attr × String))) :: []) =
        ((CastDict.from_map_step preColl "cast (smallint AS bigint)" []).1, some err) ∧
      (alookup (CastDict.from_map_step preColl "cast (smallint AS bigint)" []).1
        ("smallint", "bigint")).isSome = true ∧
      ∀ k, (alookup preColl k).isSome = true →
        (alookup (CastDict.from_map_step preColl "cast (smallint AS bigint)" []).1
          k).isSome = true :=
  C10_from_map_not_atomic [] _ "cast (smallint AS bigint)" [] [] preColl
    "smallint" "bigint" rfl rfl (Or.inl rfl)

/-- A well-formed external key — one whose upper-casing first contains
the AS separator exactly where extern_key placed it — parses back into
its source and target type names. -/
theorem parseKey_well_formed (src trg : String)
    (hf : firstOccur " AS ".data
        (upperList ("cast (" ++ src ++ " as " ++ trg ++ ")").data) =
      some (6 + src.data.length)) :
    CastDict.parseKey ("cast (" ++ src ++ " as " ++ trg ++ ")") =
      Except.ok (src, trg) := by
  have hrp : (")" : String).data = [')'] := rfl
  have hl6 : ("cast (" : String).data.length = 6 := rfl
  have hl4 : (" as " : String).data.length = 4 := rfl
  have hdata2 : ("cast (" ++ src ++ " as " ++ trg ++ ")").data =
      ("cast (".data ++ src.data) ++ (" as ".data ++ (trg.data ++ ")".data)) := by
    simp [String.data_append, List.append_assoc]
  have hdata3 : ("cast (" ++ src ++ " as " ++ trg ++ ")").data =
      (("cast (".data ++ src.data ++ " as ".data) ++ trg.data) ++ [')'] := by
    simp [String.data_append, List.append_assoc, hrp]
  have hpre : ("cast (".data.isPrefixOf
      ("cast (" ++ src ++ " as " ++ trg ++ ")").data) = true := by
    rw [List.isPrefixOf_iff_prefix, hdata2]
    simp only [List.append_assoc]
    exact List.prefix_append _ _
  have hlast : ("cast (" ++ src ++ " as " ++ trg ++ ")").data.getLast? = some ')' := by
    rw [hdata3]
    exact List.getLast?_concat _
  have hcont : containsSub
      (upperList ("cast (" ++ src ++ " as " ++ trg ++ ")").data) " AS ".data = true := by
    rw [containsSub, hf]
    rfl
  have hdec : decide
      (("cast (" ++ src ++ " as " ++ trg ++ ")").data.getLast? = some ')') = true := by
    simp only [decide_eq_true_eq]
    exact hlast
  have hcond : (!("cast (".data.isPrefixOf ("cast (" ++ src ++ " as " ++ trg ++ ")").data)
      || !(containsSub (upperList ("cast (" ++ src ++ " as " ++ trg ++ ")").data) " AS ".data)
      || !(decide (("cast (" ++ src ++ " as " ++ trg ++ ")").data.getLast? = some ')'))) =
      false := by
    rw [hpre, hcont, hdec]
    rfl
  have htake1 : ("cast (" ++ src ++ " as " ++ trg ++ ")").data.take (6 + src.data.length) =
      "cast (".data ++ src.data := by
    rw [hdata2]
    exact List.take_left' (by rw [List.length_append, hl6])
  have hslice1 : (("cast (" ++ src ++ " as " ++ trg ++ ")").data.take
      (6 + src.data.length)).drop 6 = src.data := by
    rw [htake1]
    exact List.drop_left' hl6
  have hlen : ("cast (" ++ src ++ " as " ++ trg ++ ")").data.length - 1 =
      (("cast (".data ++ src.data ++ " as ".data) ++ trg.data).length := by
    rw [hdata3]
    simp
    omega
  have htake2 : ("cast (" ++ src ++ " as " ++ trg ++ ")").data.take
      (("cast (" ++ src ++ " as " ++ trg ++ ")").data.length - 1) =
      ("cast (".data ++ src.data ++ " as ".data) ++ trg.data := by
    rw [hlen, hdata3]
    exact List.take_left' rfl
  have hslice2 : (("cast (" ++ src ++ " as " ++ trg ++ ")").data.take
      (("cast (" ++ src ++ " as " ++ trg ++ ")").data.length - 1)).drop
      (6 + src.data.length + 4) = trg.data := by
    rw [htake2]
    exact List.drop_left' (by rw [List.length_append, List.length_append, hl6, hl4])
  simp only [CastDict.parseKey, hcond]
  rw [if_neg Bool.false_ne_true, hf]
  simp only [Option.getD_some]
  rw [hslice1, hslice2]

/-- C2: for every cast whose context code is one of a, e, i and whose
method code is one of f, i, b, and whose extern_key is well formed (the
first occurrence of the upper-cased AS separator is the one extern_key
wrote), feeding extern_key and the to_map attribute projection back
through CastDict.from_map reconstructs exactly the original cast: same
source, target, single-letter context and method codes, same function
and description; from_map's lower-case-and-truncate normalization
inverts to_map's word expansion. -/
theorem C2_roundtrip (c : Cast) (ctx m : String)
    (hc : c.context = some ctx) (hm : c.method = some m)
    (hctx : ctx = "a" ∨ ctx = "e" ∨ ctx = "i")
    (hmeth : m = "f" ∨ m = "i" ∨ m = "b")
    (hkey : firstOccur " AS ".data (upperList (Cast.extern_key c).data) =
      some (6 + c.source.data.length)) :
    ∃ entry, c.to_map = Except.ok entry ∧
      CastDict.from_map [] [(Cast.extern_key c, entry)] =
        ([((c.source, c.target), c)], none) := by
  obtain ⟨cw, hcw, hlcw⟩ : ∃ cw, CONTEXTS ctx = some cw ∧ lower1 cw = ctx := by
    rcases hctx with rfl | rfl | rfl
    · exact ⟨"assignment", rfl, rfl⟩
    · exact ⟨"explicit", rfl, rfl⟩
    · exact ⟨"implicit", rfl, rfl⟩
  obtain ⟨mw, hmw, hlmw⟩ : ∃ mw, METHODS m = some mw ∧ lower1 mw = m := by
    rcases hmeth with rfl | rfl | rfl
    · exact ⟨"function", rfl, rfl⟩
    · exact ⟨"inout", rfl, rfl⟩
    · exact ⟨"binary coercible", rfl, rfl⟩
  obtain ⟨csrc, ctrg, ccx, cme, cfn, cds⟩ := c
  replace hc : ccx = some ctx := hc
  replace hm : cme = some m := hm
  subst hc
  subst hm
  have hparse : CastDict.parseKey ("cast (" ++ csrc ++ " as " ++ ctrg ++ ")") =
      Except.ok (csrc, ctrg) := parseKey_well_formed csrc ctrg hkey
  refine ⟨Cast.base_map ⟨csrc, ctrg, some ctx, some m, cfn, cds⟩ ++
    [(Attr.context, cw), (Attr.method, mw)], ?_, ?_⟩
  · simp [Cast.to_map, hcw, hmw]
  · rcases cfn with _ | fv <;> rcases cds with _ | dv <;>
      simp [CastDict.from_map, CastDict.from_map_step, Cast.extern_key, hparse,
        Cast.base_map, Cast.setattr, Cast.mk0, aupdate, hlcw, hlmw]

/-- Witness for C2_roundtrip at a concrete explicit cast by function. -/
theorem C2_roundtrip_witness :
    ∃ entry, fnCast.to_map = Except.ok entry ∧
      CastDict.from_map [] [(Cast.extern_key fnCast, entry)] =
        ([((fnCast.source, fnCast.target), fnCast)], none) :=
  C2_roundtrip fnCast "e" "f" rfl rfl (Or.inr (Or.inl rfl)) (Or.inl rfl) (by decide)

end Pyrseas
